import Mathlib

/-!
riemoon: Lua bindings for riemann-c-client.

A shallow embedding of `lib/riemoon.c`: the event builder
(`_riemoon_event_create`), `riemoon_send` and `riemoon_query`. The functions
of the Lua C API, of riemann-c-client and of libc that the binding calls are
external libraries; each is embedded after its reference documentation, as
far as the binding uses it.

Conventions of the embedding.

* The Lua stack is a list of values, bottom first; index `1` is the first
  argument and index `-1` the top.
* A Lua string is a Lean `String` and may hold NUL characters. Whatever the
  binding reads through a `const char *` (`lua_tostring`, `luaL_checkstring`)
  is seen by C up to the first NUL only: `cstr`.
* Strings stored in C structures (event fields, the error text of a
  response) are C strings.
* Lua numbers follow Lua 5.3: an integer subtype (`lua_Integer`, 64 bits) and
  a float subtype (`lua_Number`, an IEEE double). A finite double is the
  rational it denotes; infinities and NaN are not modelled as inputs.
* `long` and `int64_t` are 64 bits wide (LP64). The `int` that
  `riemann_client_send_message_oneshot` returns is `0` or a negated `errno`,
  so `-r` does not overflow.
* A table is its positional part `t[1..n]`, `n = lua_rawlen t`, and its
  string-keyed entries in the order `lua_next` yields them. Keys of other
  types are not modelled. Tables hold fewer than `2^31` positional entries,
  so `(int) lua_rawlen` is exact.
* A Lua error raised by `luaL_error` or a failed `luaL_check*` unwinds the
  C function: `Outcome.error`. A call the Lua reference manual gives no
  meaning to (`lua_next` on a value that is not a table, `lua_tostring` on a
  traversal key that is not a string) is `Outcome.undefined`.
-/

namespace Riemoon

/-! ## C arithmetic -/

/-- Two-complement wrap of an integer to 64 bits: a conversion to `long` or
`int64_t`. -/
def wrap64 (n : Int) : Int :=
  (n + 2 ^ 63) % 2 ^ 64 - 2 ^ 63

/-- Floor of the binary logarithm, by repeated halving; `fuel` bounds the
number of halvings and `fuel = n` is always enough. -/
def floorLog2 : Nat → Nat → Nat
  | 0, _ => 0
  | fuel + 1, n => if 2 ≤ n then floorLog2 fuel (n / 2) + 1 else 0

/-- The binary exponent of a positive rational `n / d`: the largest `e` with
`2 ^ e ≤ n / d`. -/
def binaryExponent (n d : Nat) : Int :=
  if d ≤ n then
    (floorLog2 (n / d) (n / d) : Int)
  else
    let k := floorLog2 (d / n) (d / n)
    if d ≤ 2 ^ k * n then -(k : Int) else -(k : Int) - 1

/-- The integer nearest to `N / D`, ties to even (`0 < D`). -/
def roundHalfEvenDiv (N : Int) (D : Nat) : Int :=
  let q := N / (D : Int)
  let r := N % (D : Int)
  if 2 * r < (D : Int) then q
  else if (D : Int) < 2 * r then q + 1
  else if q % 2 = 0 then q else q + 1

/-- Power of two with an integer exponent. -/
def pow2 (e : Int) : ℚ :=
  if 0 ≤ e then (2 : ℚ) ^ e.toNat else 1 / (2 : ℚ) ^ (-e).toNat

/-- Rounding of the non-zero rational `num / den` to a binary floating-point
format with `p` bits of significand and least normal exponent `emin` (round
to nearest, ties to even, gradual underflow): the pair `(m, k)` stands for
`m * 2 ^ k`. -/
def roundMantissa (p : Nat) (emin : Int) (num : Int) (den : Nat) : Int × Int :=
  let e0 := binaryExponent num.natAbs den
  let e := if emin ≤ e0 then e0 else emin
  let k := e - ((p : Int) - 1)
  let m :=
    if 0 ≤ k then roundHalfEvenDiv num (den * 2 ^ k.toNat)
    else roundHalfEvenDiv (num * 2 ^ (-k).toNat) den
  (m, k)

/-- Rounding of a rational to the format `(p, emin)`, not yet checked against
the largest finite value of the format. -/
def roundSignificand (p : Nat) (emin : Int) (x : ℚ) : ℚ :=
  if x.num = 0 then 0
  else ((roundMantissa p emin x.num x.den).1 : ℚ) * pow2 (roundMantissa p emin x.num x.den).2

/-- A C `float`: finite, or an infinity. -/
inductive CFloat where
  | finite (q : ℚ)
  | infinite (negative : Bool)
deriving DecidableEq

/-- Conversion `(float) x` of a finite double: 24 bits of significand,
exponents from `-126` to `127`. -/
def c_double_to_float (x : ℚ) : CFloat :=
  let y := roundSignificand 24 (-126) x
  if pow2 128 ≤ |y| then CFloat.infinite (decide (x < 0)) else CFloat.finite y

/-- Conversion `(double) n` of a 64-bit integer (`cast_num` in Lua): 53 bits
of significand. -/
def c_int64_to_double (n : Int) : ℚ :=
  roundSignificand 53 (-1022) (n : ℚ)

/-- The C view of a Lua string handed over as `const char *`: the characters
before the first NUL. -/
def cstr (s : String) : String :=
  String.mk (s.data.takeWhile (fun c => !(c == Char.ofNat 0)))

/-! ## riemann-c-client data -/

/-- The fields of `riemann_event_t` the binding writes. An optional protobuf
field is `none` until set; `tags` and `attributes` are repeated fields. -/
structure Event where
  time : Option Int := none
  state : Option String := none
  service : Option String := none
  host : Option String := none
  description : Option String := none
  tags : List String := []
  ttl : Option CFloat := none
  attributes : List (String × String) := []
  metric_d : Option ℚ := none
deriving DecidableEq

/-- The fields of `riemann_message_t`: the `ok` flag (a decoded protobuf
boolean, `0` or `1`), the error text (`NULL` when absent), the events and the
query string. -/
structure Message where
  ok : Bool := false
  error : Option String := none
  events : List Event := []
  query : Option String := none
deriving DecidableEq

/-- `riemann_event_new ()`: an event with no field set. -/
def riemann_event_new : Event := {}

/-- `riemann_message_new ()`: an empty message. -/
def riemann_message_new : Message := {}

/-- `riemann_event_tag_add (event, tag)`: appends one tag. -/
def riemann_event_tag_add (event : Event) (tag : String) : Event :=
  { event with tags := event.tags ++ [tag] }

/-- `riemann_event_attribute_add (event, riemann_attribute_create (key, value))`:
appends one attribute. -/
def riemann_event_attribute_add (event : Event) (key value : String) : Event :=
  { event with attributes := event.attributes ++ [(key, value)] }

/-- `riemann_message_append_events (message, event, NULL)`: appends one event. -/
def riemann_message_append_events (message : Message) (event : Event) : Message :=
  { message with events := message.events ++ [event] }

/-- `riemann_message_create_with_query (riemann_query_new (query))`. -/
def riemann_message_create_with_query (query : String) : Message :=
  { riemann_message_new with query := some query }

/-! ## Lua values and the Lua C API -/

/-- What a full userdata of the binding holds: `riemoon_client_t` (the
connection is the `Transport` of the call) or `riemoon_response_t`. -/
inductive UserData where
  | client (id : Nat)
  | response (message : Message)
deriving DecidableEq

/-- A Lua value. `table arr hash`: `arr` is `t[1], ..., t[n]` with
`n = lua_rawlen t`, `hash` the string-keyed entries in traversal order.
`userdata tname ud`: a full userdata whose metatable is the one registered as
`tname`. -/
inductive LuaValue where
  | nil
  | boolean (b : Bool)
  | integer (n : Int)
  | float (q : ℚ)
  | string (s : String)
  | table (arr : List LuaValue) (hash : List (String × LuaValue))
  | userdata (tname : String) (ud : UserData)

/-- The basic types `lua_type` reports; `none` is `LUA_TNONE`, the type of a
stack index that holds nothing. -/
inductive LuaType where
  | none | nil | boolean | number | string | table | userdata
deriving DecidableEq

/-- A number as `luaO_str2num` reads it from a string. -/
inductive LuaNumber where
  | int (n : Int)
  | flt (q : ℚ)
deriving DecidableEq

/-- The Lua errors the binding can raise. `typeExpected t`: `luaL_typeerror`,
"bad argument (t expected, got ...)". `noIntegerRepresentation`:
"number has no integer representation". -/
inductive LuaError where
  | typeExpected (tname : String)
  | noIntegerRepresentation
deriving DecidableEq

/-- How a C function of the binding ends: it returns (`ok`), a Lua error
unwinds it (`error`), or it made a call the Lua reference manual gives no
meaning to (`undefined`). -/
inductive Outcome (α : Type) where
  | ok (a : α)
  | error (e : LuaError)
  | undefined

/-- Library functions the binding calls whose results the binding only
passes on: `strerror` of libc, the numeral reader `luaO_str2num` and the
float formatter (`"%.14g"`) of Lua. -/
structure Runtime where
  strerror : Int → String
  str2number : String → Option LuaNumber
  fmtFloat : ℚ → String

/-- The Lua stack of a C function, bottom first. -/
abbrev Stack := List LuaValue

/-- The value at an acceptable index: positive indices count from the bottom,
negative ones from the top. -/
def lua_index (l : Stack) (idx : Int) : Option LuaValue :=
  if 0 < idx then l.get? (idx.toNat - 1)
  else if idx < 0 ∧ (-idx).toNat ≤ l.length then l.get? (l.length - (-idx).toNat)
  else none

/-- `lua_gettop`. -/
def lua_gettop (l : Stack) : Nat := l.length

/-- `lua_pop (l, n)`. -/
def lua_pop (l : Stack) (n : Nat) : Stack := l.take (l.length - n)

/-- `lua_settop (l, 0)`: empties the stack. -/
def lua_settop0 (_l : Stack) : Stack := []

/-- A push (`lua_pushnil`, `lua_pushinteger`, `lua_pushstring`,
`lua_newuserdata`). -/
def lua_push (l : Stack) (v : LuaValue) : Stack := l ++ [v]

/-- The value `lua_pushstring (l, s)` pushes: `nil` for `NULL`, else a copy
of the C string. -/
def lua_pushstring_value (s : Option String) : LuaValue :=
  match s with
  | none => LuaValue.nil
  | some s => LuaValue.string s

/-- The results of a C function that returns `n`: the top `n` values. -/
def lua_results (l : Stack) (n : Nat) : List LuaValue := l.drop (l.length - n)

/-- `lua_type` of a stack slot. -/
def lua_type (v : Option LuaValue) : LuaType :=
  match v with
  | none => LuaType.none
  | some LuaValue.nil => LuaType.nil
  | some (LuaValue.boolean _) => LuaType.boolean
  | some (LuaValue.integer _) => LuaType.number
  | some (LuaValue.float _) => LuaType.number
  | some (LuaValue.string _) => LuaType.string
  | some (LuaValue.table _ _) => LuaType.table
  | some (LuaValue.userdata _ _) => LuaType.userdata

/-- `lua_tolstring`: a string is itself, a number is formatted (an integer in
decimal, a float by the runtime), anything else gives `NULL`. -/
def lua_tolstring (rt : Runtime) (v : Option LuaValue) : Option String :=
  match v with
  | some (LuaValue.string s) => some s
  | some (LuaValue.integer n) => some (toString n)
  | some (LuaValue.float q) => some (rt.fmtFloat q)
  | _ => none

/-- `lua_tonumberx`: a float is itself, an integer is converted to a double,
a string is read as a numeral; anything else fails. -/
def lua_tonumberx (rt : Runtime) (v : Option LuaValue) : Option ℚ :=
  match v with
  | some (LuaValue.float q) => some q
  | some (LuaValue.integer n) => some (c_int64_to_double n)
  | some (LuaValue.string s) =>
    match rt.str2number s with
    | some (LuaNumber.flt q) => some q
    | some (LuaNumber.int n) => some (c_int64_to_double n)
    | none => none
  | _ => none

/-- `luaV_tointeger` in exact mode on a float: the float must denote an
integer that fits 64 bits. -/
def float_to_integer (q : ℚ) : Option Int :=
  if q.den = 1 ∧ -(2 : Int) ^ 63 ≤ q.num ∧ q.num < (2 : Int) ^ 63 then some q.num else none

/-- `lua_tointegerx`: an integer is itself, a float must denote an integer,
a string is read as a numeral first; anything else fails. -/
def lua_tointegerx (rt : Runtime) (v : Option LuaValue) : Option Int :=
  match v with
  | some (LuaValue.integer n) => some n
  | some (LuaValue.float q) => float_to_integer q
  | some (LuaValue.string s) =>
    match rt.str2number s with
    | some (LuaNumber.int n) => some n
    | some (LuaNumber.flt q) => float_to_integer q
    | none => none
  | _ => none

/-- `lua_isnumber`: a number or a string convertible to one. -/
def lua_isnumber (rt : Runtime) (v : Option LuaValue) : Bool :=
  (lua_tonumberx rt v).isSome

/-- `luaL_checktype (l, idx, t)`. -/
def luaL_checktype (l : Stack) (idx : Int) (t : LuaType) (tname : String) : Outcome Unit :=
  if lua_type (lua_index l idx) = t then Outcome.ok () else Outcome.error (LuaError.typeExpected tname)

/-- `luaL_checkstring (l, idx)`, its result read as a C string. -/
def luaL_checkstring (rt : Runtime) (l : Stack) (idx : Int) : Outcome String :=
  match lua_tolstring rt (lua_index l idx) with
  | some s => Outcome.ok (cstr s)
  | none => Outcome.error (LuaError.typeExpected "string")

/-- `luaL_checknumber (l, idx)`. -/
def luaL_checknumber (rt : Runtime) (l : Stack) (idx : Int) : Outcome ℚ :=
  match lua_tonumberx rt (lua_index l idx) with
  | some q => Outcome.ok q
  | none => Outcome.error (LuaError.typeExpected "number")

/-- `luaL_checkinteger (l, idx)`. -/
def luaL_checkinteger (rt : Runtime) (l : Stack) (idx : Int) : Outcome Int :=
  match lua_tointegerx rt (lua_index l idx) with
  | some n => Outcome.ok n
  | none =>
    if lua_isnumber rt (lua_index l idx) then Outcome.error LuaError.noIntegerRepresentation
    else Outcome.error (LuaError.typeExpected "number")

/-- `luaL_checklong (l, idx)`, that is `(long) luaL_checkinteger (l, idx)`. -/
def luaL_checklong (rt : Runtime) (l : Stack) (idx : Int) : Outcome Int :=
  match luaL_checkinteger rt l idx with
  | Outcome.ok n => Outcome.ok (wrap64 n)
  | Outcome.error e => Outcome.error e
  | Outcome.undefined => Outcome.undefined

/-- `luaL_checkudata (l, idx, tname)`. -/
def luaL_checkudata (l : Stack) (idx : Int) (tname : String) : Outcome UserData :=
  match lua_index l idx with
  | some (LuaValue.userdata t ud) =>
    if t = tname then Outcome.ok ud else Outcome.error (LuaError.typeExpected tname)
  | _ => Outcome.error (LuaError.typeExpected tname)

/-! ## The event builder -/

/-- The `for` loop over `tags` (lines 113-123): with the table of tags on
top of the stack `l`, `lua_rawgeti` pushes each of `t[1], ..., t[n]` in turn,
`luaL_checkstring` reads it and `riemann_event_tag_add` appends it. -/
def tags_loop (rt : Runtime) (l : Stack) : List LuaValue → Event → Outcome Event
  | [], event => Outcome.ok event
  | v :: rest, event =>
    match luaL_checkstring rt (lua_push l v) (-1) with
    | Outcome.ok value => tags_loop rt l rest (riemann_event_tag_add event value)
    | Outcome.error e => Outcome.error e
    | Outcome.undefined => Outcome.undefined

/-- The body of the `while (lua_next (l, -2) != 0)` loop (lines 71-146) for
one entry: `l` holds the key at `-2` and the value at `-1`. The key is read
with `lua_tostring` and compared with `strcmp`. -/
def event_entry (rt : Runtime) (l : Stack) (event : Event) : Outcome Event :=
  match lua_index l (-2) with
  | some (LuaValue.string k) =>
    let key := cstr k
    if key = "time" then
      match luaL_checklong rt l (-1) with
      | Outcome.ok value => Outcome.ok { event with time := some (wrap64 value) }
      | Outcome.error e => Outcome.error e
      | Outcome.undefined => Outcome.undefined
    else if key = "state" then
      match luaL_checkstring rt l (-1) with
      | Outcome.ok value => Outcome.ok { event with state := some value }
      | Outcome.error e => Outcome.error e
      | Outcome.undefined => Outcome.undefined
    else if key = "service" then
      match luaL_checkstring rt l (-1) with
      | Outcome.ok value => Outcome.ok { event with service := some value }
      | Outcome.error e => Outcome.error e
      | Outcome.undefined => Outcome.undefined
    else if key = "host" then
      match luaL_checkstring rt l (-1) with
      | Outcome.ok value => Outcome.ok { event with host := some value }
      | Outcome.error e => Outcome.error e
      | Outcome.undefined => Outcome.undefined
    else if key = "description" then
      match luaL_checkstring rt l (-1) with
      | Outcome.ok value => Outcome.ok { event with description := some value }
      | Outcome.error e => Outcome.error e
      | Outcome.undefined => Outcome.undefined
    else if key = "tags" then
      match luaL_checktype l (-1) LuaType.table "table", lua_index l (-1) with
      | Outcome.ok _, some (LuaValue.table arr _) => tags_loop rt l arr event
      | Outcome.error e, _ => Outcome.error e
      | _, _ => Outcome.undefined
    else if key = "ttl" then
      match luaL_checknumber rt l (-1) with
      | Outcome.ok value => Outcome.ok { event with ttl := some (c_double_to_float value) }
      | Outcome.error e => Outcome.error e
      | Outcome.undefined => Outcome.undefined
    else if key = "metric" then
      match luaL_checknumber rt l (-1) with
      | Outcome.ok value => Outcome.ok { event with metric_d := some value }
      | Outcome.error e => Outcome.error e
      | Outcome.undefined => Outcome.undefined
    else
      match luaL_checkstring rt l (-1) with
      | Outcome.ok value => Outcome.ok (riemann_event_attribute_add event key value)
      | Outcome.error e => Outcome.error e
      | Outcome.undefined => Outcome.undefined
  | _ => Outcome.undefined

/-- The `while (lua_next (l, -2) != 0)` loop over the string-keyed entries of
the table on top of `l`: each round pushes a key and its value, runs the
body, and pops the value. -/
def event_loop (rt : Runtime) (l : Stack) : List (String × LuaValue) → Event → Outcome Event
  | [], event => Outcome.ok event
  | (k, v) :: rest, event =>
    match event_entry rt (lua_push (lua_push l (LuaValue.string k)) v) event with
    | Outcome.ok event1 => event_loop rt l rest event1
    | Outcome.error e => Outcome.error e
    | Outcome.undefined => Outcome.undefined

/-- `_riemoon_event_create (l)` (lines 62-150): builds one event from the
table on top of the stack. `lua_next` is given no meaning on a value that is
not a table; with a positional entry the traversal meets a key that is not a
string, which `lua_tostring` converts in place ("this confuses the next call
to `lua_next`", Lua reference manual). The stack is left as it was. -/
def _riemoon_event_create (rt : Runtime) (l : Stack) : Outcome Event :=
  match lua_index l (-1) with
  | some (LuaValue.table [] hash) => event_loop rt l hash riemann_event_new
  | _ => Outcome.undefined

/-! ## Send and query -/

/-- The connection of a client handle, as one call sees it: what
`riemann_client_send_message_oneshot` returns for a message (`0`, or a
negated `errno`), and what `riemann_client_recv_message` returns (`NULL`, or
the decoded response). -/
structure Transport where
  send_message_oneshot : Message → Int
  recv_message : Option Message

/-- A call the binding makes on the connection. -/
inductive TransportCall where
  | send (message : Message)
  | recv
deriving DecidableEq

/-- What a call of the binding did: the calls it made on the connection, in
order, and how it ended; `Outcome.ok` carries the values returned to Lua. -/
structure Run where
  calls : List TransportCall
  outcome : Outcome (List LuaValue)

/-- The `for (i = 1; i <= count; i++)` loop of `riemoon_send` (lines
165-174), `n` rounds to go: check that index `2` holds a table, build an
event from the table on top of the stack, append it, pop the top. -/
def send_loop (rt : Runtime) : Nat → Stack → Message → Outcome (Stack × Message)
  | 0, l, message => Outcome.ok (l, message)
  | n + 1, l, message =>
    match luaL_checktype l 2 LuaType.table "table" with
    | Outcome.ok _ =>
      match _riemoon_event_create rt l with
      | Outcome.ok event =>
        send_loop rt n (lua_pop l 1) (riemann_message_append_events message event)
      | Outcome.error e => Outcome.error e
      | Outcome.undefined => Outcome.undefined
    | Outcome.error e => Outcome.error e
    | Outcome.undefined => Outcome.undefined

/-- `riemoon_send (l)` (lines 152-184). -/
def riemoon_send (rt : Runtime) (net : Transport) (l : Stack) : Run :=
  match luaL_checkudata l 1 "Riemoon.Client" with
  | Outcome.ok _client =>
    let message := riemann_message_new
    let count := lua_gettop l - 1
    match send_loop rt count l message with
    | Outcome.ok (l1, message1) =>
      let r := net.send_message_oneshot message1
      let l2 := lua_settop0 l1
      let l3 := lua_push l2 (LuaValue.integer (-r))
      let l4 := lua_push l3 (lua_pushstring_value (some (rt.strerror (-r))))
      { calls := [TransportCall.send message1], outcome := Outcome.ok (lua_results l4 2) }
    | Outcome.error e => { calls := [], outcome := Outcome.error e }
    | Outcome.undefined => { calls := [], outcome := Outcome.undefined }
  | Outcome.error e => { calls := [], outcome := Outcome.error e }
  | Outcome.undefined => { calls := [], outcome := Outcome.undefined }

/-- `riemoon_query (l)` (lines 186-245). -/
def riemoon_query (rt : Runtime) (net : Transport) (l : Stack) : Run :=
  match luaL_checkudata l 1 "Riemoon.Client" with
  | Outcome.ok _client =>
    match luaL_checkstring rt l 2 with
    | Outcome.ok query =>
      let request := riemann_message_create_with_query query
      let r := net.send_message_oneshot request
      if r ≠ 0 then
        let l1 := lua_settop0 l
        let l2 := lua_push l1 LuaValue.nil
        let l3 := lua_push l2 (LuaValue.integer (-r))
        let l4 := lua_push l3 (lua_pushstring_value (some (rt.strerror (-r))))
        { calls := [TransportCall.send request], outcome := Outcome.ok (lua_results l4 3) }
      else
        match net.recv_message with
        | none =>
          let l1 := lua_settop0 l
          let l2 := lua_push l1 LuaValue.nil
          let l3 := lua_push l2 (LuaValue.integer (-r))
          let l4 := lua_push l3 (lua_pushstring_value (some (rt.strerror (-r))))
          { calls := [TransportCall.send request, TransportCall.recv],
            outcome := Outcome.ok (lua_results l4 3) }
        | some response =>
          if response.ok ≠ true then
            let l1 := lua_settop0 l
            let l2 := lua_push l1 LuaValue.nil
            let l3 := lua_push l2 (LuaValue.integer (-1))
            let l4 := lua_push l3 (lua_pushstring_value response.error)
            { calls := [TransportCall.send request, TransportCall.recv],
              outcome := Outcome.ok (lua_results l4 3) }
          else
            let l1 := lua_push l (LuaValue.userdata "Riemoon.Response" (UserData.response response))
            let l2 := lua_push l1 (LuaValue.integer (-r))
            let l3 := lua_push l2 (lua_pushstring_value (some (rt.strerror (-r))))
            { calls := [TransportCall.send request, TransportCall.recv],
              outcome := Outcome.ok (lua_results l3 3) }
    | Outcome.error e => { calls := [], outcome := Outcome.error e }
    | Outcome.undefined => { calls := [], outcome := Outcome.undefined }
  | Outcome.error e => { calls := [], outcome := Outcome.error e }
  | Outcome.undefined => { calls := [], outcome := Outcome.undefined }

/-! ## A runtime and a connection for the examples -/

/-- The error texts of glibc at `0`, `EPIPE` (32), `ENOTCONN` (107) and
`ECONNREFUSED` (111), the error numbers the examples use. For any other
number it gives the text glibc has for a number it does not know, so it does
not follow glibc on the other numbers glibc knows; the theorems below
evaluate it at `0` and `107` only. -/
def strerror_glibc (errnum : Int) : String :=
  if errnum = 0 then "Success"
  else if errnum = 32 then "Broken pipe"
  else if errnum = 107 then "Transport endpoint is not connected"
  else if errnum = 111 then "Connection refused"
  else "Unknown error " ++ toString errnum

/-- A reader of unsigned decimal integers: `none` for the empty string and
for a string with any other character. -/
def readDecimal (s : String) : Option Nat :=
  if s.data = [] then none
  else s.data.foldl
    (fun acc c =>
      match acc with
      | some n => if c.isDigit then some (10 * n + (c.toNat - 48)) else none
      | none => none)
    (some 0)

/-- A runtime for the examples: `strerror` as above; the numeral reader
knows unsigned decimal integers only and the float formatter is a stand-in,
which is all the examples below ask of them. -/
def sampleRuntime : Runtime where
  strerror := strerror_glibc
  str2number := fun s => (readDecimal s).map (fun n => LuaNumber.int (n : Int))
  fmtFloat := fun _ => "?"

/-- A connection on which every send succeeds and nothing is received. -/
def healthyTransport : Transport where
  send_message_oneshot := fun _ => 0
  recv_message := none

/-- A client handle as `riemoon_connect` makes it. -/
def clientHandle : LuaValue :=
  LuaValue.userdata "Riemoon.Client" (UserData.client 0)

/-- A connection whose collector answers every query with the response
`response`. -/
def answeringTransport (response : Message) : Transport where
  send_message_oneshot := fun _ => 0
  recv_message := some response

/-- A connection on which every send fails with `ENOTCONN`. -/
def brokenTransport : Transport where
  send_message_oneshot := fun _ => -107
  recv_message := none

/-- The event the builder makes of the value `a` on top of the stack; the
empty event when the builder does not return. -/
def builtEvent (rt : Runtime) (a : LuaValue) : Event :=
  match _riemoon_event_create rt [a] with
  | Outcome.ok event => event
  | _ => riemann_event_new

/-- The mapping `{host = h}`. -/
def hostTable (h : String) : LuaValue :=
  LuaValue.table [] [("host", LuaValue.string h)]

/-- The call `send (client, {}, 5)`: a table, then a number. -/
def sendTableThenNumber : Stack :=
  [clientHandle, LuaValue.table [] [], LuaValue.integer 5]

/-- The call `send (client, {metric = "high"}, 5)`: a mapping whose `metric`
is not numeric, then a number. -/
def sendMismatchThenNumber : Stack :=
  [clientHandle, LuaValue.table [] [("metric", LuaValue.string "high")], LuaValue.integer 5]

/-- A Lua string of six characters: `tags`, a NUL, `x`. -/
def tagsKeyWithNul : String :=
  String.mk [Char.ofNat 116, Char.ofNat 97, Char.ofNat 103, Char.ofNat 115, Char.ofNat 0,
    Char.ofNat 120]

/-- The eight well-known field names. -/
def wellKnownKeys : List String :=
  ["time", "state", "service", "host", "description", "tags", "ttl", "metric"]

/-- The C strings `luaL_checkstring` reads from the values `arr`, when each of
them is a string or a number. -/
def tagStrings (rt : Runtime) : List LuaValue → Option (List String)
  | [] => some []
  | v :: rest =>
    match lua_tolstring rt (some v), tagStrings rt rest with
    | some s, some ss => some (cstr s :: ss)
    | _, _ => none

/-- A Lua string of six characters: `time`, a NUL, `x`. -/
def keyWithNul : String :=
  String.mk [Char.ofNat 116, Char.ofNat 105, Char.ofNat 109, Char.ofNat 101, Char.ofNat 0,
    Char.ofNat 120]

/-- A Lua string of four characters: `ok`, a NUL, `x`. -/
def stateWithNul : String :=
  String.mk [Char.ofNat 111, Char.ofNat 107, Char.ofNat 0, Char.ofNat 120]

/-- Whether a value is a Lua string. -/
def isLuaString (v : LuaValue) : Bool :=
  match v with
  | LuaValue.string _ => true
  | _ => false

/-- A well-typed entry of a mapping with well-known keys: `time` with a
64-bit integer, `state`, `service`, `host` or `description` with a string,
`tags` with a table whose positional entries are strings, `ttl` or `metric`
with a float. -/
def wellTyped (k : String) (v : LuaValue) : Bool :=
  match v with
  | LuaValue.integer n =>
    k = "time" && decide (-9223372036854775808 ≤ n ∧ n < 9223372036854775808)
  | LuaValue.string _ => k = "state" || k = "service" || k = "host" || k = "description"
  | LuaValue.table arr _ => k = "tags" && arr.all isLuaString
  | LuaValue.float _ => k = "ttl" || k = "metric"
  | _ => false

/-- The strings among `arr`, as C strings. -/
def stringsOf (arr : List LuaValue) : List String :=
  arr.filterMap fun v =>
    match v with
    | LuaValue.string s => some (cstr s)
    | _ => none

/-- The event with the fields the well-typed mapping `hash` supplies, over
the event `base` for the fields it does not supply: a string is stored as a
C string, `ttl` as a `float`, tags are appended. -/
def overlayEvent (base : Event) (hash : List (String × LuaValue)) : Event where
  time :=
    match hash.lookup "time" with
    | some (LuaValue.integer n) => some n
    | _ => base.time
  state :=
    match hash.lookup "state" with
    | some (LuaValue.string s) => some (cstr s)
    | _ => base.state
  service :=
    match hash.lookup "service" with
    | some (LuaValue.string s) => some (cstr s)
    | _ => base.service
  host :=
    match hash.lookup "host" with
    | some (LuaValue.string s) => some (cstr s)
    | _ => base.host
  description :=
    match hash.lookup "description" with
    | some (LuaValue.string s) => some (cstr s)
    | _ => base.description
  tags :=
    match hash.lookup "tags" with
    | some (LuaValue.table arr _) => base.tags ++ stringsOf arr
    | _ => base.tags
  ttl :=
    match hash.lookup "ttl" with
    | some (LuaValue.float q) => some (c_double_to_float q)
    | _ => base.ttl
  attributes := base.attributes
  metric_d :=
    match hash.lookup "metric" with
    | some (LuaValue.float q) => some q
    | _ => base.metric_d

/-- The event the data model of the specification describes for a mapping of
well-known keys: each supplied field holds the supplied value in the type of
the field (a string as a C string, `ttl` as a `float`), a field that is not
supplied is unset, and there is no attribute. -/
def expectedEvent (hash : List (String × LuaValue)) : Event where
  time :=
    match hash.lookup "time" with
    | some (LuaValue.integer n) => some n
    | _ => none
  state :=
    match hash.lookup "state" with
    | some (LuaValue.string s) => some (cstr s)
    | _ => none
  service :=
    match hash.lookup "service" with
    | some (LuaValue.string s) => some (cstr s)
    | _ => none
  host :=
    match hash.lookup "host" with
    | some (LuaValue.string s) => some (cstr s)
    | _ => none
  description :=
    match hash.lookup "description" with
    | some (LuaValue.string s) => some (cstr s)
    | _ => none
  tags :=
    match hash.lookup "tags" with
    | some (LuaValue.table arr _) => stringsOf arr
    | _ => []
  ttl :=
    match hash.lookup "ttl" with
    | some (LuaValue.float q) => some (c_double_to_float q)
    | _ => none
  attributes := []
  metric_d :=
    match hash.lookup "metric" with
    | some (LuaValue.float q) => some q
    | _ => none

/-- The mapping of the round-trip example: `{time = 1000, state = "ok",
service = "disk", host = "h1", tags = {"x", "y"}, metric = 0.5}`. -/
def roundTripMapping : List (String × LuaValue) :=
  [("time", LuaValue.integer 1000), ("state", LuaValue.string "ok"),
   ("service", LuaValue.string "disk"), ("host", LuaValue.string "h1"),
   ("tags", LuaValue.table [LuaValue.string "x", LuaValue.string "y"] []),
   ("metric", LuaValue.float (1 / 2))]

/-! ## Stack lemmas -/

theorem lua_index_top (l : Stack) (v : LuaValue) : lua_index (lua_push l v) (-1) = some v := by
  simp [lua_index, lua_push]

theorem lua_index_below_top (l : Stack) (a b : LuaValue) :
    lua_index (lua_push (lua_push l a) b) (-2) = some a := by
  have h : (l ++ [a] ++ [b]).get? ((l ++ [a] ++ [b]).length - 2) = some a := by
    have e : (l ++ [a] ++ [b]).length - 2 = l.length := by simp
    rw [e, List.append_assoc, List.get?_eq_getElem?, List.getElem?_append_right (le_refl _)]
    simp
  simpa [lua_index, lua_push] using h

theorem lua_index_one (a : LuaValue) (l : Stack) : lua_index (a :: l) 1 = some a := by
  simp [lua_index]

theorem lua_index_two (a b : LuaValue) (l : Stack) : lua_index (a :: b :: l) 2 = some b := by
  simp [lua_index]

theorem lua_pop_push (l : Stack) (v : LuaValue) : lua_pop (l ++ [v]) 1 = l := by
  simp [lua_pop]

/-! ## Query -/

/-- C3. When the query was transmitted and the response received has
`ok = false` and the error string `e`, `riemoon_query` returns exactly
`(nil, -1, e)`. -/
theorem riemoon_query_rejected (rt : Runtime) (net : Transport) (l : Stack)
    (client : UserData) (query : String) (response : Message) (e : String)
    (hclient : luaL_checkudata l 1 "Riemoon.Client" = Outcome.ok client)
    (hquery : luaL_checkstring rt l 2 = Outcome.ok query)
    (hsend : net.send_message_oneshot (riemann_message_create_with_query query) = 0)
    (hrecv : net.recv_message = some response)
    (hok : response.ok = false) (herr : response.error = some e) :
    (riemoon_query rt net l).outcome
      = Outcome.ok [LuaValue.nil, LuaValue.integer (-1), LuaValue.string e] := by
  simp [riemoon_query, hclient, hquery, hsend, hrecv, hok, herr, lua_results, lua_push,
    lua_settop0, lua_pushstring_value]

/-- C3, at the response `ok = false`, `error = "bad query"`. -/
theorem riemoon_query_rejected_witness :
    (riemoon_query sampleRuntime
        (answeringTransport { ok := false, error := some "bad query" })
        [clientHandle, LuaValue.string "true"]).outcome
      = Outcome.ok [LuaValue.nil, LuaValue.integer (-1), LuaValue.string "bad query"] :=
  riemoon_query_rejected sampleRuntime
    (answeringTransport { ok := false, error := some "bad query" })
    [clientHandle, LuaValue.string "true"] (UserData.client 0) "true"
    { ok := false, error := some "bad query" } "bad query" rfl rfl rfl rfl rfl rfl

/-- Whenever the query is sent and nothing is received, the code returned is
`-r` with `r = 0`. -/
theorem riemoon_query_recv_null (rt : Runtime) (net : Transport) (l : Stack)
    (client : UserData) (query : String)
    (hclient : luaL_checkudata l 1 "Riemoon.Client" = Outcome.ok client)
    (hquery : luaL_checkstring rt l 2 = Outcome.ok query)
    (hsend : net.send_message_oneshot (riemann_message_create_with_query query) = 0)
    (hrecv : net.recv_message = none) :
    (riemoon_query rt net l).outcome
      = Outcome.ok [LuaValue.nil, LuaValue.integer 0, LuaValue.string (rt.strerror 0)] := by
  simp [riemoon_query, hclient, hquery, hsend, hrecv, lua_results, lua_push, lua_settop0,
    lua_pushstring_value]

/-- C1. On a connection where the query is sent (`r = 0`) and nothing is
received, `riemoon_query` returns `(nil, 0, "Success")`: the status code is
`-r`, which is zero on this path. -/
theorem riemoon_query_no_response_code_zero :
    riemoon_query sampleRuntime healthyTransport [clientHandle, LuaValue.string "true"]
      = { calls := [TransportCall.send (riemann_message_create_with_query "true"),
                    TransportCall.recv],
          outcome := Outcome.ok
            [LuaValue.nil, LuaValue.integer 0, LuaValue.string "Success"] } := by
  rfl

/-- C9. For a call of `riemoon_query` whose arguments pass their checks, with
`r` the return value of the send: three values are returned; the first is not
`nil` exactly when `r = 0`, a response was received and its `ok` flag is set;
then the first value is the response userdata holding the received message,
the code is `0` and the text is `strerror (0)`; and when `r` is not zero the
result is `(nil, -r, strerror (-r))` and nothing is received. -/
theorem riemoon_query_response_iff (rt : Runtime) (net : Transport) (l : Stack)
    (client : UserData) (query : String)
    (hclient : luaL_checkudata l 1 "Riemoon.Client" = Outcome.ok client)
    (hquery : luaL_checkstring rt l 2 = Outcome.ok query) :
    (∃ first code text,
        (riemoon_query rt net l).outcome = Outcome.ok [first, code, text]
        ∧ (first ≠ LuaValue.nil ↔
            (net.send_message_oneshot (riemann_message_create_with_query query) = 0
              ∧ ∃ response, net.recv_message = some response ∧ response.ok = true)))
    ∧ (∀ response,
        net.send_message_oneshot (riemann_message_create_with_query query) = 0 →
        net.recv_message = some response → response.ok = true →
        (riemoon_query rt net l).outcome
          = Outcome.ok [LuaValue.userdata "Riemoon.Response" (UserData.response response),
              LuaValue.integer 0, LuaValue.string (rt.strerror 0)])
    ∧ (net.send_message_oneshot (riemann_message_create_with_query query) ≠ 0 →
        riemoon_query rt net l
          = { calls := [TransportCall.send (riemann_message_create_with_query query)],
              outcome := Outcome.ok
                [LuaValue.nil,
                 LuaValue.integer
                   (-net.send_message_oneshot (riemann_message_create_with_query query)),
                 LuaValue.string (rt.strerror
                   (-net.send_message_oneshot (riemann_message_create_with_query query)))] }) := by
  refine ⟨?_, ?_, ?_⟩
  · by_cases hr : net.send_message_oneshot (riemann_message_create_with_query query) = 0
    · cases hrecv : net.recv_message with
      | none =>
        refine ⟨LuaValue.nil, LuaValue.integer 0, LuaValue.string (rt.strerror 0), ?_, ?_⟩
        · simp [riemoon_query, hclient, hquery, hr, hrecv, lua_results, lua_push,
            lua_settop0, lua_pushstring_value]
        · simp
      | some response =>
        cases hok : response.ok with
        | false =>
          refine ⟨LuaValue.nil, LuaValue.integer (-1), lua_pushstring_value response.error,
            ?_, ?_⟩
          · simp [riemoon_query, hclient, hquery, hr, hrecv, hok, lua_results, lua_push,
              lua_settop0]
          · simp [hok]
        | true =>
          refine ⟨LuaValue.userdata "Riemoon.Response" (UserData.response response),
            LuaValue.integer 0, LuaValue.string (rt.strerror 0), ?_, ?_⟩
          · simp [riemoon_query, hclient, hquery, hr, hrecv, hok, lua_results, lua_push,
              lua_pushstring_value]
          · simp [hr, hok]
    · refine ⟨LuaValue.nil,
        LuaValue.integer (-net.send_message_oneshot (riemann_message_create_with_query query)),
        LuaValue.string (rt.strerror
          (-net.send_message_oneshot (riemann_message_create_with_query query))), ?_, ?_⟩
      · simp [riemoon_query, hclient, hquery, hr, lua_results, lua_push, lua_settop0,
          lua_pushstring_value]
      · simp [hr]
  · intro response hr hrecv hok
    simp [riemoon_query, hclient, hquery, hr, hrecv, hok, lua_results, lua_push,
      lua_pushstring_value]
  · intro hr
    simp [riemoon_query, hclient, hquery, hr, lua_results, lua_push, lua_settop0,
      lua_pushstring_value]

/-- C9, at a query answered with `ok = true` and one event. -/
theorem riemoon_query_response_iff_witness :
    (riemoon_query sampleRuntime
        (answeringTransport { ok := true, events := [{ host := some "h1" }] })
        [clientHandle, LuaValue.string "true"]).outcome
      = Outcome.ok
          [LuaValue.userdata "Riemoon.Response"
             (UserData.response { ok := true, events := [{ host := some "h1" }] }),
           LuaValue.integer 0, LuaValue.string "Success"] :=
  (riemoon_query_response_iff sampleRuntime
    (answeringTransport { ok := true, events := [{ host := some "h1" }] })
    [clientHandle, LuaValue.string "true"] (UserData.client 0) "true" rfl rfl).2.1
    { ok := true, events := [{ host := some "h1" }] } rfl rfl rfl

/-! ## The event builder does not depend on the stack below its operands -/

theorem luaL_checkstring_top (rt : Runtime) (l : Stack) (v : LuaValue) :
    luaL_checkstring rt (lua_push l v) (-1) = luaL_checkstring rt [v] (-1) := by
  have h := lua_index_top [] v
  simp only [lua_push, List.nil_append] at h
  simp [luaL_checkstring, lua_index_top, h]

theorem tags_loop_stack (rt : Runtime) (l : Stack) (arr : List LuaValue) :
    ∀ event, tags_loop rt l arr event = tags_loop rt [] arr event := by
  induction arr with
  | nil => intro event; rfl
  | cons v rest ih =>
    intro event
    simp only [tags_loop]
    rw [luaL_checkstring_top rt l v, luaL_checkstring_top rt [] v]
    cases luaL_checkstring rt [v] (-1) with
    | ok value => simp only [ih]
    | error e => rfl
    | undefined => rfl

theorem event_entry_stack (rt : Runtime) (l : Stack) (k : String) (v : LuaValue)
    (event : Event) :
    event_entry rt (lua_push (lua_push l (LuaValue.string k)) v) event
      = event_entry rt [LuaValue.string k, v] event := by
  have h1 := lua_index_top (lua_push l (LuaValue.string k)) v
  have h2 := lua_index_below_top l (LuaValue.string k) v
  have h3 := lua_index_top (lua_push [] (LuaValue.string k)) v
  have h4 := lua_index_below_top [] (LuaValue.string k) v
  have e : lua_push (lua_push [] (LuaValue.string k)) v = [LuaValue.string k, v] := rfl
  rw [e] at h3 h4
  simp only [event_entry, luaL_checklong, luaL_checkinteger, luaL_checkstring,
    luaL_checknumber, luaL_checktype, h1, h2, h3, h4,
    tags_loop_stack rt (lua_push (lua_push l (LuaValue.string k)) v),
    tags_loop_stack rt [LuaValue.string k, v]]

theorem event_loop_stack (rt : Runtime) (l : Stack) (hash : List (String × LuaValue)) :
    ∀ event, event_loop rt l hash event = event_loop rt [] hash event := by
  induction hash with
  | nil => intro event; rfl
  | cons p rest ih =>
    intro event
    obtain ⟨k, v⟩ := p
    simp only [event_loop]
    rw [event_entry_stack rt l k v, event_entry_stack rt [] k v]
    cases event_entry rt [LuaValue.string k, v] event with
    | ok event1 => simp only [ih]
    | error e => rfl
    | undefined => rfl

theorem lua_index_pair_top (a b : LuaValue) : lua_index [a, b] (-1) = some b := rfl

theorem lua_index_pair_below (a b : LuaValue) : lua_index [a, b] (-2) = some a := rfl

theorem luaL_checkstring_single (rt : Runtime) (v : LuaValue) :
    luaL_checkstring rt [v] (-1) ≠ Outcome.undefined := by
  have h : lua_index [v] (-1) = some v := rfl
  simp only [luaL_checkstring, h]
  cases lua_tolstring rt (some v) <;> simp

theorem tags_loop_defined (rt : Runtime) (arr : List LuaValue) :
    ∀ event, tags_loop rt [] arr event ≠ Outcome.undefined := by
  induction arr with
  | nil => intro event; simp [tags_loop]
  | cons v rest ih =>
    intro event
    have h := luaL_checkstring_single rt v
    simp only [tags_loop, lua_push, List.nil_append]
    cases hv : luaL_checkstring rt [v] (-1) with
    | ok value => simpa using ih _
    | error e => simp
    | undefined => exact absurd hv h

/-- The loop body ends in a result or a Lua error when the key is a string. -/
theorem event_entry_defined (rt : Runtime) (k : String) (v : LuaValue) (event : Event) :
    event_entry rt [LuaValue.string k, v] event ≠ Outcome.undefined := by
  simp only [event_entry, luaL_checklong, luaL_checkinteger, luaL_checkstring,
    luaL_checknumber, luaL_checktype, lua_index_pair_top, lua_index_pair_below,
    tags_loop_stack rt [LuaValue.string k, v]]
  split_ifs <;>
    first
    | (cases lua_tointegerx rt (some v) <;> simp <;> done)
    | (cases lua_tolstring rt (some v) <;> simp <;> done)
    | (cases lua_tonumberx rt (some v) <;> simp <;> done)
    | (cases v <;> simp_all [lua_type, tags_loop_defined])

theorem event_loop_defined (rt : Runtime) (hash : List (String × LuaValue)) :
    ∀ event, event_loop rt [] hash event ≠ Outcome.undefined := by
  induction hash with
  | nil => intro event; simp [event_loop]
  | cons p rest ih =>
    intro event
    obtain ⟨k, v⟩ := p
    have h := event_entry_defined rt k v event
    simp only [event_loop, event_entry_stack rt [] k v]
    cases hv : event_entry rt [LuaValue.string k, v] event with
    | ok event1 => simpa using ih _
    | error e => simp
    | undefined => exact absurd hv h

/-- An entry whose check fails makes the whole traversal end in a Lua error. -/
theorem event_loop_fails (rt : Runtime) (k : String) (v : LuaValue)
    (hbad : ∀ event, ∃ e, event_entry rt [LuaValue.string k, v] event = Outcome.error e)
    (hash : List (String × LuaValue)) (hmem : (k, v) ∈ hash) :
    ∀ event, ∃ e, event_loop rt [] hash event = Outcome.error e := by
  induction hash with
  | nil => simp at hmem
  | cons p rest ih =>
    intro event
    obtain ⟨k1, v1⟩ := p
    simp only [event_loop, event_entry_stack rt [] k1 v1]
    cases hv : event_entry rt [LuaValue.string k1, v1] event with
    | ok event1 =>
      rcases List.mem_cons.mp hmem with h | h
      · obtain ⟨e, he⟩ := hbad event
        simp only [Prod.mk.injEq] at h
        rw [h.1, h.2, hv] at he
        cases he
      · simpa using ih h event1
    | error e => exact ⟨e, rfl⟩
    | undefined => exact absurd hv (event_entry_defined rt k1 v1 event)

/-- The builder reads the table on top of the stack and nothing else. -/
theorem event_create_top (rt : Runtime) (l : Stack) (a : LuaValue) :
    _riemoon_event_create rt (l ++ [a]) = _riemoon_event_create rt [a] := by
  have h1 : lua_index (l ++ [a]) (-1) = some a := lua_index_top l a
  have h2 : lua_index [a] (-1) = some a := rfl
  simp only [_riemoon_event_create, h1, h2]
  cases a with
  | table arr hash =>
    cases arr with
    | nil => simp only [event_loop_stack rt (l ++ _) hash, event_loop_stack rt [_] hash]
    | cons x xs => rfl
  | _ => rfl

theorem event_create_table (rt : Runtime) (hash : List (String × LuaValue)) :
    _riemoon_event_create rt [LuaValue.table [] hash]
      = event_loop rt [] hash riemann_event_new := by
  have h2 : lua_index [LuaValue.table [] hash] (-1) = some (LuaValue.table [] hash) := rfl
  simp only [_riemoon_event_create, h2, event_loop_stack rt [_] hash]

theorem event_create_ok_table (rt : Runtime) (a : LuaValue) (event : Event)
    (h : _riemoon_event_create rt [a] = Outcome.ok event) :
    lua_type (some a) = LuaType.table := by
  cases a <;> first | rfl | (simp [_riemoon_event_create, lua_index] at h)

/-- One round of the loop of `riemoon_send`, when index `2` holds a table:
the event is built from the top of the stack, which is then popped. -/
theorem send_loop_round (rt : Runtime) (n : Nat) (c : LuaValue) (args : List LuaValue)
    (a : LuaValue) (message : Message)
    (h2 : lua_type (lua_index (c :: (args ++ [a])) 2) = LuaType.table) :
    send_loop rt (n + 1) (c :: (args ++ [a])) message
      = match _riemoon_event_create rt [a] with
        | Outcome.ok event =>
          send_loop rt n (c :: args) (riemann_message_append_events message event)
        | Outcome.error e => Outcome.error e
        | Outcome.undefined => Outcome.undefined := by
  have hs : c :: (args ++ [a]) = (c :: args) ++ [a] := rfl
  simp only [send_loop, luaL_checktype, h2, if_true]
  rw [hs, event_create_top rt (c :: args) a, lua_pop_push]

theorem lua_index_two_head (c : LuaValue) (args : List LuaValue) (a : LuaValue) :
    lua_index (c :: (args ++ [a])) 2 = some ((args ++ [a]).head (by simp)) := by
  cases args <;> simp [lua_index]

/-- When every argument builds, the loop of `riemoon_send` appends the events
from the last argument to the first and leaves the client alone on the stack. -/
theorem send_loop_ok (rt : Runtime) (c : LuaValue) (built : LuaValue → Event)
    (args : List LuaValue) :
    (∀ a ∈ args, _riemoon_event_create rt [a] = Outcome.ok (built a)) →
    ∀ message, send_loop rt args.length (c :: args) message
      = Outcome.ok ([c],
          { message with events := message.events ++ (args.map built).reverse }) := by
  induction args using List.reverseRecOn with
  | nil => intro _ message; simp [send_loop]
  | append_singleton args a ih =>
    intro h message
    have hhead : lua_type (lua_index (c :: (args ++ [a])) 2) = LuaType.table := by
      rw [lua_index_two_head]
      exact event_create_ok_table rt _ _ (h _ (List.head_mem _))
    have ha := h a (by simp)
    have hrest : ∀ x ∈ args, _riemoon_event_create rt [x] = Outcome.ok (built x) :=
      fun x hx => h x (by simp [hx])
    rw [List.length_append, List.length_singleton, send_loop_round rt _ c args a message hhead,
      ha]
    simp only [ih hrest, riemann_message_append_events]
    simp

/-- When some argument is a string-keyed table whose traversal ends in a Lua
error, and all arguments are string-keyed tables, the loop of `riemoon_send`
ends in a Lua error. -/
theorem send_loop_fails (rt : Runtime) (c : LuaValue)
    (tables : List (List (String × LuaValue))) :
    (∃ hash ∈ tables, ∃ e, event_loop rt [] hash riemann_event_new = Outcome.error e) →
    ∀ message, ∃ e,
      send_loop rt tables.length (c :: tables.map (fun h => LuaValue.table [] h)) message
        = Outcome.error e := by
  induction tables using List.reverseRecOn with
  | nil => intro h; simp at h
  | append_singleton tables t ih =>
    intro h message
    have hhead : lua_type (lua_index
        (c :: (tables.map (fun h => LuaValue.table [] h) ++ [LuaValue.table [] t])) 2)
        = LuaType.table := by
      rw [lua_index_two_head]
      cases tables <;> rfl
    rw [List.length_append, List.length_singleton, List.map_append, List.map_singleton,
      send_loop_round rt _ c _ _ message hhead, event_create_table]
    cases ht : event_loop rt [] t riemann_event_new with
    | ok event =>
      obtain ⟨hash, hmem, e, he⟩ := h
      rcases List.mem_append.mp hmem with hm | hm
      · simpa using ih ⟨hash, hm, e, he⟩ _
      · simp only [List.mem_singleton] at hm
        rw [hm, ht] at he
        cases he
    | error e => exact ⟨e, rfl⟩
    | undefined => exact absurd ht (event_loop_defined rt t _)

/-! ## Send -/

/-- C10. When `riemoon_send` is called with the arguments `args` after the
client and every argument builds (`built a` being the event of `a`), exactly
one message is sent; it carries no query and its events are those of the
arguments in reverse order, one for each argument. -/
theorem riemoon_send_events_reversed (rt : Runtime) (net : Transport) (handle : UserData)
    (args : List LuaValue) (built : LuaValue → Event)
    (hbuilt : ∀ a ∈ args, _riemoon_event_create rt [a] = Outcome.ok (built a)) :
    (riemoon_send rt net (LuaValue.userdata "Riemoon.Client" handle :: args)).calls
      = [TransportCall.send
          { ok := false, error := none, events := (args.map built).reverse, query := none }] := by
  have h := send_loop_ok rt (LuaValue.userdata "Riemoon.Client" handle) built args hbuilt
    riemann_message_new
  simp only [riemoon_send, luaL_checkudata, lua_index_one, if_true, lua_gettop,
    List.length_cons, Nat.add_sub_cancel, h]
  simp [riemann_message_new]

/-- C10, at `send (client, {host = "a"}, {host = "b"})`: the event of the
second table comes first. -/
theorem riemoon_send_events_reversed_witness :
    (riemoon_send sampleRuntime healthyTransport
        [clientHandle, hostTable "a", hostTable "b"]).calls
      = [TransportCall.send { events := [{ host := some "b" }, { host := some "a" }] }] :=
  riemoon_send_events_reversed sampleRuntime healthyTransport (UserData.client 0)
    [hostTable "a", hostTable "b"] (builtEvent sampleRuntime)
    (by
      intro a ha
      simp only [List.mem_cons, List.mem_singleton, List.not_mem_nil, or_false] at ha
      rcases ha with h | h <;> subst h <;> rfl)

/-- C8. When every argument of `riemoon_send` builds, the call returns
exactly two values: the negated return value `r` of the send, and
`strerror` of it; the code is zero exactly when `r` is; a failed send is
reported this way and no Lua error is raised. With no argument after the
client the message sent has no events, and the status is `0` when the send
succeeds. -/
theorem riemoon_send_result (rt : Runtime) (net : Transport) (handle : UserData)
    (args : List LuaValue) (built : LuaValue → Event)
    (hbuilt : ∀ a ∈ args, _riemoon_event_create rt [a] = Outcome.ok (built a)) :
    ((riemoon_send rt net (LuaValue.userdata "Riemoon.Client" handle :: args)).outcome
      = Outcome.ok
          [LuaValue.integer
             (-net.send_message_oneshot { events := (args.map built).reverse }),
           LuaValue.string (rt.strerror
             (-net.send_message_oneshot { events := (args.map built).reverse }))])
    ∧ (-net.send_message_oneshot { events := (args.map built).reverse } = 0
        ↔ net.send_message_oneshot { events := (args.map built).reverse } = 0)
    ∧ (riemoon_send rt net [LuaValue.userdata "Riemoon.Client" handle]).calls
        = [TransportCall.send { events := [] }]
    ∧ (net.send_message_oneshot { events := [] } = 0 →
        (riemoon_send rt net [LuaValue.userdata "Riemoon.Client" handle]).outcome
          = Outcome.ok [LuaValue.integer 0, LuaValue.string (rt.strerror 0)]) := by
  have h := send_loop_ok rt (LuaValue.userdata "Riemoon.Client" handle) built args hbuilt
    riemann_message_new
  refine ⟨?_, ?_, ?_, ?_⟩
  · simp only [riemoon_send, luaL_checkudata, lua_index_one, if_true, lua_gettop,
      List.length_cons, Nat.add_sub_cancel, h]
    simp [riemann_message_new, lua_results, lua_push, lua_settop0, lua_pushstring_value]
  · exact neg_eq_zero
  · simp [riemoon_send, luaL_checkudata, lua_index, lua_gettop, send_loop,
      riemann_message_new]
  · intro h0
    have h1 : net.send_message_oneshot riemann_message_new = 0 := h0
    simp [riemoon_send, luaL_checkudata, lua_index, lua_gettop, send_loop, h1,
      lua_results, lua_push, lua_settop0, lua_pushstring_value]

/-- C8, on a connection where every send fails with `ENOTCONN`. -/
theorem riemoon_send_result_witness :
    (riemoon_send sampleRuntime brokenTransport [clientHandle, hostTable "a"]).outcome
      = Outcome.ok
          [LuaValue.integer 107, LuaValue.string "Transport endpoint is not connected"] :=
  (riemoon_send_result sampleRuntime brokenTransport (UserData.client 0)
    [hostTable "a"] (builtEvent sampleRuntime)
    (by
      intro a ha
      simp only [List.mem_singleton] at ha
      subst ha
      rfl)).1

/-- A value that is no number and no numeral fails the check of `ttl` and of
`metric`. -/
theorem event_entry_not_numeric (rt : Runtime) (k : String) (v : LuaValue)
    (hk : cstr k = "metric" ∨ cstr k = "ttl") (hv : lua_tonumberx rt (some v) = none)
    (event : Event) :
    event_entry rt [LuaValue.string k, v] event
      = Outcome.error (LuaError.typeExpected "number") := by
  rcases hk with hk | hk <;>
    simp [event_entry, lua_index_pair_top, lua_index_pair_below, luaL_checknumber, hk, hv]

/-- On the calls of `riemoon_send` whose arguments after the client are all
string-keyed tables: if some table has an entry `ttl` or `metric` whose
value is no number and no numeral (or any entry whose check fails), the call
ends in a Lua error and makes no call on the connection. -/
theorem riemoon_send_type_mismatch (rt : Runtime) (net : Transport) (handle : UserData)
    (tables : List (List (String × LuaValue))) (hash : List (String × LuaValue))
    (k : String) (v : LuaValue) (hmem : hash ∈ tables) (hkv : (k, v) ∈ hash)
    (hbad : ((cstr k = "metric" ∨ cstr k = "ttl") ∧ lua_tonumberx rt (some v) = none)
      ∨ ∀ event, ∃ e, event_entry rt [LuaValue.string k, v] event = Outcome.error e) :
    (riemoon_send rt net (LuaValue.userdata "Riemoon.Client" handle
        :: tables.map (fun h => LuaValue.table [] h))).calls = []
    ∧ ∃ e, (riemoon_send rt net (LuaValue.userdata "Riemoon.Client" handle
        :: tables.map (fun h => LuaValue.table [] h))).outcome = Outcome.error e := by
  have hentry : ∀ event, ∃ e, event_entry rt [LuaValue.string k, v] event = Outcome.error e := by
    rcases hbad with ⟨hk, hv⟩ | h
    · exact fun event => ⟨_, event_entry_not_numeric rt k v hk hv event⟩
    · exact h
  obtain ⟨e, he⟩ := event_loop_fails rt k v hentry hash hkv riemann_event_new
  obtain ⟨e1, he1⟩ := send_loop_fails rt (LuaValue.userdata "Riemoon.Client" handle) tables
    ⟨hash, hmem, e, he⟩ riemann_message_new
  constructor
  · simp only [riemoon_send, luaL_checkudata, lua_index_one, if_true, lua_gettop,
      List.length_cons, List.length_map, Nat.add_sub_cancel, he1]
  · refine ⟨e1, ?_⟩
    simp only [riemoon_send, luaL_checkudata, lua_index_one, if_true, lua_gettop,
      List.length_cons, List.length_map, Nat.add_sub_cancel, he1]

/-- The same at `send (client, {host = "a"}, {metric = "high"})`. -/
theorem riemoon_send_type_mismatch_witness :
    (riemoon_send sampleRuntime healthyTransport
        [clientHandle, hostTable "a",
         LuaValue.table [] [("metric", LuaValue.string "high")]]).calls = []
    ∧ ∃ e, (riemoon_send sampleRuntime healthyTransport
        [clientHandle, hostTable "a",
         LuaValue.table [] [("metric", LuaValue.string "high")]]).outcome
        = Outcome.error e :=
  riemoon_send_type_mismatch sampleRuntime healthyTransport (UserData.client 0)
    [[("host", LuaValue.string "a")], [("metric", LuaValue.string "high")]]
    [("metric", LuaValue.string "high")] "metric" (LuaValue.string "high")
    (by simp) (by simp) (Or.inl ⟨Or.inl rfl, rfl⟩)

/-- Whenever the first event argument is a table and the last one is not, the
first round of the loop passes its check and runs the builder on the last
argument: `riemoon_send` raises no Lua error. -/
theorem riemoon_send_last_not_table (rt : Runtime) (net : Transport) (handle : UserData)
    (arr : List LuaValue) (hash : List (String × LuaValue)) (args : List LuaValue)
    (x : LuaValue) (hx : lua_type (some x) ≠ LuaType.table) :
    (riemoon_send rt net (LuaValue.userdata "Riemoon.Client" handle
        :: LuaValue.table arr hash :: (args ++ [x]))).outcome = Outcome.undefined := by
  have hround := send_loop_round rt (args.length + 1)
    (LuaValue.userdata "Riemoon.Client" handle)
    (LuaValue.table arr hash :: args) x riemann_message_new rfl
  have hbuild : _riemoon_event_create rt [x] = Outcome.undefined := by
    cases x <;> first | rfl | exact absurd rfl hx
  have hlen : lua_gettop (LuaValue.userdata "Riemoon.Client" handle
      :: LuaValue.table arr hash :: (args ++ [x])) - 1 = args.length + 1 + 1 := by
    simp [lua_gettop]
  simp only [List.cons_append] at hround
  simp only [riemoon_send, luaL_checkudata, lua_index_one, if_true, hlen, hround, hbuild]

/-- A string-keyed table whose traversal ends in a Lua error keeps the loop
of `riemoon_send` from completing, whatever the other arguments are. -/
theorem send_loop_not_ok (rt : Runtime) (c : LuaValue) (hash : List (String × LuaValue))
    (e : LuaError) (hbad : event_loop rt [] hash riemann_event_new = Outcome.error e)
    (args : List LuaValue) :
    LuaValue.table [] hash ∈ args →
    ∀ message r, send_loop rt args.length (c :: args) message ≠ Outcome.ok r := by
  induction args using List.reverseRecOn with
  | nil => intro h; simp at h
  | append_singleton args a ih =>
    intro hmem message r
    have hs : c :: (args ++ [a]) = (c :: args) ++ [a] := rfl
    rw [List.length_append, List.length_singleton]
    simp only [send_loop]
    cases luaL_checktype (c :: (args ++ [a])) 2 LuaType.table "table" with
    | ok u =>
      simp only
      rw [hs, event_create_top rt (c :: args) a, lua_pop_push]
      cases ha : _riemoon_event_create rt [a] with
      | ok event =>
        simp only
        rcases List.mem_append.mp hmem with h | h
        · exact ih h _ r
        · simp only [List.mem_singleton] at h
          rw [← h, event_create_table, hbad] at ha
          cases ha
      | error e1 => simp
      | undefined => simp
    | error e1 => simp
    | undefined => simp

/-- No message is sent when some argument is a string-keyed table with an
entry whose check fails, whatever the other arguments are: the call makes no
call on the connection and does not return. -/
theorem riemoon_send_mismatch_sends_nothing (rt : Runtime) (net : Transport) (l : Stack)
    (hash : List (String × LuaValue)) (k : String) (v : LuaValue)
    (hmem : LuaValue.table [] hash ∈ l.tail) (hkv : (k, v) ∈ hash)
    (hbad : ∀ event, ∃ e, event_entry rt [LuaValue.string k, v] event = Outcome.error e) :
    (riemoon_send rt net l).calls = []
    ∧ ∀ r, (riemoon_send rt net l).outcome ≠ Outcome.ok r := by
  obtain ⟨e, he⟩ := event_loop_fails rt k v hbad hash hkv riemann_event_new
  cases l with
  | nil => simp at hmem
  | cons c args =>
    simp only [List.tail_cons] at hmem
    have hloop := send_loop_not_ok rt c hash e he args hmem riemann_message_new
    simp only [riemoon_send, lua_gettop, List.length_cons, Nat.add_sub_cancel]
    cases luaL_checkudata (c :: args) 1 "Riemoon.Client" with
    | ok ud =>
      simp only
      cases hs : send_loop rt args.length (c :: args) riemann_message_new with
      | ok r => exact absurd hs (hloop r)
      | error e1 => simp
      | undefined => simp
    | error e1 => simp
    | undefined => simp

/-- C4. In `send (client, {metric = "high"}, 5)` the mapping has a `metric`
that is not numeric. The rounds of the loop build from the top of the stack
and check index `2`: the first round passes its check on the mapping and runs
the builder on the number, so the call never reaches the mapping and raises
no Lua error. Nothing is sent. -/
theorem riemoon_send_mismatch_unreported :
    lua_tonumberx sampleRuntime (some (LuaValue.string "high")) = none
    ∧ luaL_checktype sendMismatchThenNumber 2 LuaType.table "table" = Outcome.ok ()
    ∧ lua_index sendMismatchThenNumber (-1) = some (LuaValue.integer 5)
    ∧ (riemoon_send sampleRuntime healthyTransport sendMismatchThenNumber).outcome
        = Outcome.undefined
    ∧ (riemoon_send sampleRuntime healthyTransport sendMismatchThenNumber).calls = [] := by
  refine ⟨rfl, rfl, rfl, rfl, rfl⟩

/-- C2. In `send (client, {}, 5)` the second event argument is a number. The
check of each round looks at index `2`, which holds the table, and the
builder is run on the number on top of the stack: the call does not end in a
Lua error. -/
theorem riemoon_send_unchecked_argument :
    luaL_checktype sendTableThenNumber 2 LuaType.table "table" = Outcome.ok ()
    ∧ lua_index sendTableThenNumber (-1) = some (LuaValue.integer 5)
    ∧ (riemoon_send sampleRuntime healthyTransport sendTableThenNumber).outcome
        = Outcome.undefined := by
  refine ⟨rfl, rfl, rfl⟩

/-! ## What one entry does to the event -/

theorem tags_loop_eq (rt : Runtime) (arr : List LuaValue) :
    ∀ event, tags_loop rt [] arr event
      = match tagStrings rt arr with
        | some ss => Outcome.ok { event with tags := event.tags ++ ss }
        | none => Outcome.error (LuaError.typeExpected "string") := by
  induction arr with
  | nil => intro event; simp [tags_loop, tagStrings]
  | cons v rest ih =>
    intro event
    have h : lua_index (lua_push [] v) (-1) = some v := rfl
    simp only [tags_loop, luaL_checkstring, h, tagStrings]
    cases hv : lua_tolstring rt (some v) with
    | none => simp
    | some s =>
      simp only [ih, riemann_event_tag_add]
      cases tagStrings rt rest with
      | none => simp
      | some ss => simp

/-- An entry whose key, read as a C string, is none of the eight names: the
value is read as a string and appended as an attribute. -/
theorem event_entry_unknown (rt : Runtime) (k : String) (v : LuaValue) (event : Event)
    (hk : cstr k ∉ wellKnownKeys) :
    event_entry rt [LuaValue.string k, v] event
      = match lua_tolstring rt (some v) with
        | some s => Outcome.ok
            { event with attributes := event.attributes ++ [(cstr k, cstr s)] }
        | none => Outcome.error (LuaError.typeExpected "string") := by
  simp only [wellKnownKeys, List.mem_cons, List.mem_singleton, List.not_mem_nil, or_false,
    not_or] at hk
  obtain ⟨h1, h2, h3, h4, h5, h6, h7, h8⟩ := hk
  simp only [event_entry, lua_index_pair_below, lua_index_pair_top, luaL_checkstring, h1, h2,
    h3, h4, h5, h6, h7, h8, if_false, riemann_event_attribute_add]
  cases lua_tolstring rt (some v) <;> rfl

/-- Everything a successful entry can do: set one field, append tags, or
append one attribute. -/
theorem event_entry_cases (rt : Runtime) (k : String) (v : LuaValue) (ev0 ev1 : Event)
    (h : event_entry rt [LuaValue.string k, v] ev0 = Outcome.ok ev1) :
    (cstr k ≠ "tags" ∧ ev1.tags = ev0.tags ∧ ev1.attributes = ev0.attributes)
    ∨ (cstr k = "tags" ∧ ev1.attributes = ev0.attributes)
    ∨ (cstr k ∉ wellKnownKeys ∧ ev1.tags = ev0.tags
        ∧ ∃ s, ev1.attributes = ev0.attributes ++ [(cstr k, s)]) := by
  by_cases hk : cstr k ∈ wellKnownKeys
  · simp only [wellKnownKeys, List.mem_cons, List.mem_singleton, List.not_mem_nil,
      or_false] at hk
    simp only [event_entry, lua_index_pair_below, lua_index_pair_top, luaL_checkstring,
      luaL_checklong, luaL_checkinteger, luaL_checknumber, luaL_checktype,
      tags_loop_stack rt [LuaValue.string k, v], tags_loop_eq] at h
    rcases hk with hk | hk | hk | hk | hk | hk | hk | hk <;> simp only [hk] at h ⊢
    · cases hv : lua_tointegerx rt (some v) <;> simp [hv] at h
      · split_ifs at h
      · subst h; simp
    · cases hv : lua_tolstring rt (some v) <;> simp [hv] at h
      subst h; simp
    · cases hv : lua_tolstring rt (some v) <;> simp [hv] at h
      subst h; simp
    · cases hv : lua_tolstring rt (some v) <;> simp [hv] at h
      subst h; simp
    · cases hv : lua_tolstring rt (some v) <;> simp [hv] at h
      subst h; simp
    · cases v <;> simp [lua_type] at h
      rename_i arr other
      cases hs : tagStrings rt arr <;> simp [hs] at h
      subst h; simp
    · cases hv : lua_tonumberx rt (some v) <;> simp [hv] at h
      subst h; simp
    · cases hv : lua_tonumberx rt (some v) <;> simp [hv] at h
      subst h; simp
  · rw [event_entry_unknown rt k v ev0 hk] at h
    refine Or.inr (Or.inr ⟨hk, ?_⟩)
    cases hv : lua_tolstring rt (some v) <;> simp [hv] at h
    subst h
    exact ⟨rfl, _, rfl⟩

theorem event_loop_attributes_mono (rt : Runtime) (hash : List (String × LuaValue)) :
    ∀ ev0 ev, event_loop rt [] hash ev0 = Outcome.ok ev →
      ∀ x ∈ ev0.attributes, x ∈ ev.attributes := by
  induction hash with
  | nil =>
    intro ev0 ev h x hx
    simp only [event_loop, Outcome.ok.injEq] at h
    rw [← h]; exact hx
  | cons p rest ih =>
    intro ev0 ev h x hx
    obtain ⟨k, v⟩ := p
    simp only [event_loop, event_entry_stack rt [] k v] at h
    cases hv : event_entry rt [LuaValue.string k, v] ev0 with
    | ok ev1 =>
      rw [hv] at h
      refine ih ev1 ev h x ?_
      rcases event_entry_cases rt k v ev0 ev1 hv with ⟨_, _, ha⟩ | ⟨_, ha⟩ | ⟨_, _, s, ha⟩
      · rw [ha]; exact hx
      · rw [ha]; exact hx
      · rw [ha]; exact List.mem_append_left _ hx
    | error e => rw [hv] at h; cases h
    | undefined => rw [hv] at h; cases h

/-! ## Unrecognised keys -/

/-- C5, as stated, fails for a key with a NUL character: the key `time\0x` is
none of the eight names and its value `5` has the string form `"5"`, yet the
event built from `{["time\0x"] = 5}` has `time = 5` and no attribute. A value
with a NUL character is cut as well: `{rack = "ok\0x"}` gives the attribute
`("rack", "ok")`. -/
theorem event_create_key_with_nul_is_time :
    keyWithNul ∉ wellKnownKeys
    ∧ lua_tolstring sampleRuntime (some (LuaValue.integer 5)) = some "5"
    ∧ _riemoon_event_create sampleRuntime
        [LuaValue.table [] [(keyWithNul, LuaValue.integer 5)]]
        = Outcome.ok { time := some 5, attributes := [] }
    ∧ _riemoon_event_create sampleRuntime
        [LuaValue.table [] [("rack", LuaValue.string stateWithNul)]]
        = Outcome.ok { attributes := [("rack", "ok")] }
    ∧ "ok" ≠ stateWithNul := by
  refine ⟨by decide, rfl, rfl, rfl, by decide⟩

/-- C5, amended. For a mapping with an entry `(k, v)` where `k`, read as a C
string (up to its first NUL), is none of the eight well-known names and `v`
has the string form `s`: the event built has the attribute `(cstr k, cstr s)`,
and the entry itself appends this attribute and changes nothing else of the
event. -/
theorem event_create_unknown_key (rt : Runtime) (l : Stack)
    (hash : List (String × LuaValue)) (k : String) (v : LuaValue) (s : String) (ev : Event)
    (htop : lua_index l (-1) = some (LuaValue.table [] hash))
    (hkv : (k, v) ∈ hash) (hk : cstr k ∉ wellKnownKeys)
    (hv : lua_tolstring rt (some v) = some s)
    (hbuild : _riemoon_event_create rt l = Outcome.ok ev) :
    (cstr k, cstr s) ∈ ev.attributes
    ∧ ∀ (l0 : Stack) (event : Event),
        event_entry rt (lua_push (lua_push l0 (LuaValue.string k)) v) event
          = Outcome.ok { event with attributes := event.attributes ++ [(cstr k, cstr s)] } := by
  have hentry : ∀ event, event_entry rt [LuaValue.string k, v] event
      = Outcome.ok { event with attributes := event.attributes ++ [(cstr k, cstr s)] } := by
    intro event
    rw [event_entry_unknown rt k v event hk, hv]
  refine ⟨?_, fun l0 event => by rw [event_entry_stack, hentry]⟩
  simp only [_riemoon_event_create, htop, event_loop_stack rt l hash] at hbuild
  clear htop
  generalize riemann_event_new = ev0 at hbuild
  induction hash generalizing ev0 with
  | nil => simp at hkv
  | cons p rest ih =>
    obtain ⟨k1, v1⟩ := p
    simp only [event_loop, event_entry_stack rt [] k1 v1] at hbuild
    cases h1 : event_entry rt [LuaValue.string k1, v1] ev0 with
    | ok ev1 =>
      rw [h1] at hbuild
      rcases List.mem_cons.mp hkv with h | h
      · simp only [Prod.mk.injEq] at h
        rw [← h.1, ← h.2, hentry ev0] at h1
        simp only [Outcome.ok.injEq] at h1
        refine event_loop_attributes_mono rt rest ev1 ev hbuild _ ?_
        rw [← h1]
        simp
      · exact ih h ev1 hbuild
    | error e => rw [h1] at hbuild; cases hbuild
    | undefined => rw [h1] at hbuild; cases hbuild

/-- C5, amended, at the mapping `{host = "h1", rack = 12}`. -/
theorem event_create_unknown_key_witness :
    ("rack", "12") ∈ (builtEvent sampleRuntime
        (LuaValue.table [] [("host", LuaValue.string "h1"), ("rack", LuaValue.integer 12)])).attributes
    ∧ ∀ (l0 : Stack) (event : Event),
        event_entry sampleRuntime
            (lua_push (lua_push l0 (LuaValue.string "rack")) (LuaValue.integer 12)) event
          = Outcome.ok { event with attributes := event.attributes ++ [("rack", "12")] } :=
  event_create_unknown_key sampleRuntime
    [LuaValue.table [] [("host", LuaValue.string "h1"), ("rack", LuaValue.integer 12)]]
    [("host", LuaValue.string "h1"), ("rack", LuaValue.integer 12)]
    "rack" (LuaValue.integer 12) "12"
    (builtEvent sampleRuntime
      (LuaValue.table [] [("host", LuaValue.string "h1"), ("rack", LuaValue.integer 12)]))
    rfl (by simp) (by decide) rfl rfl

/-! ## Tags -/

theorem event_loop_tags_frame (rt : Runtime) (hash : List (String × LuaValue))
    (hno : ∀ p ∈ hash, cstr p.1 ≠ "tags") :
    ∀ ev0 ev, event_loop rt [] hash ev0 = Outcome.ok ev → ev.tags = ev0.tags := by
  induction hash with
  | nil =>
    intro ev0 ev h
    simp only [event_loop, Outcome.ok.injEq] at h
    rw [h]
  | cons p rest ih =>
    intro ev0 ev h
    obtain ⟨k, v⟩ := p
    simp only [event_loop, event_entry_stack rt [] k v] at h
    have hk : cstr k ≠ "tags" := hno (k, v) (by simp)
    cases hv : event_entry rt [LuaValue.string k, v] ev0 with
    | ok ev1 =>
      rw [hv] at h
      rw [ih (fun p hp => hno p (List.mem_cons_of_mem _ hp)) ev1 ev h]
      rcases event_entry_cases rt k v ev0 ev1 hv with ⟨_, ht, _⟩ | ⟨hk1, _⟩ | ⟨_, ht, _⟩
      · exact ht
      · exact absurd hk1 hk
      · exact ht
    | error e => rw [hv] at h; cases h
    | undefined => rw [hv] at h; cases h

theorem event_loop_append (rt : Runtime) (pre post : List (String × LuaValue)) :
    ∀ ev0, event_loop rt [] (pre ++ post) ev0
      = match event_loop rt [] pre ev0 with
        | Outcome.ok ev1 => event_loop rt [] post ev1
        | Outcome.error e => Outcome.error e
        | Outcome.undefined => Outcome.undefined := by
  induction pre with
  | nil => intro ev0; simp [event_loop]
  | cons p rest ih =>
    intro ev0
    obtain ⟨k, v⟩ := p
    simp only [List.cons_append, event_loop]
    cases event_entry rt (lua_push (lua_push [] (LuaValue.string k)) v) ev0 with
    | ok ev1 => exact ih ev1
    | error e => rfl
    | undefined => rfl

theorem tagStrings_of_map (rt : Runtime) (arr : List LuaValue) :
    ∀ strs : List String, arr.map (fun t => lua_tolstring rt (some t)) = strs.map some →
      tagStrings rt arr = some (strs.map cstr) := by
  induction arr with
  | nil =>
    intro strs h
    cases strs with
    | nil => rfl
    | cons s ss => simp at h
  | cons v rest ih =>
    intro strs h
    cases strs with
    | nil => simp at h
    | cons s ss =>
      simp only [List.map_cons, List.cons.injEq] at h
      simp [tagStrings, h.1, ih ss h.2]

theorem tagStrings_none (rt : Runtime) (arr : List LuaValue)
    (h : ∃ t ∈ arr, lua_tolstring rt (some t) = none) : tagStrings rt arr = none := by
  induction arr with
  | nil => simp at h
  | cons v rest ih =>
    obtain ⟨t, ht, hnone⟩ := h
    rcases List.mem_cons.mp ht with h1 | h1
    · subst h1
      simp [tagStrings, hnone]
    · have := ih ⟨t, h1, hnone⟩
      simp only [tagStrings, this]
      cases lua_tolstring rt (some v) <;> rfl

/-- The `tags` entry: its value must be a table, whose positional entries are
read as strings and appended in order. -/
theorem event_entry_tags (rt : Runtime) (k : String) (v : LuaValue) (event : Event)
    (hk : cstr k = "tags") :
    event_entry rt [LuaValue.string k, v] event
      = match v with
        | LuaValue.table arr _ =>
          match tagStrings rt arr with
          | some ss => Outcome.ok { event with tags := event.tags ++ ss }
          | none => Outcome.error (LuaError.typeExpected "string")
        | _ => Outcome.error (LuaError.typeExpected "table") := by
  simp only [event_entry, lua_index_pair_below, lua_index_pair_top, luaL_checktype, hk,
    tags_loop_stack rt [LuaValue.string k, v], tags_loop_eq]
  cases v <;> simp [lua_type]

/-- C7, as stated, fails for an element that is a number: the element `7` of
`{tags = {7}}` is not a string, yet the builder raises no error and adds the
tag `"7"`. A table that is a mapping and no sequence, `{tags = {x = "y"}}`,
raises no error either and adds no tag; the tag `"ok\0x"` is stored as
`"ok"`; and a second key that reads `tags` as a C string adds its tags too:
`{tags = {"a"}, ["tags\0x"] = {"b"}}` gives the tags `"a"`, `"b"`. -/
theorem event_create_numeric_tag :
    lua_type (some (LuaValue.integer 7)) = LuaType.number
    ∧ _riemoon_event_create sampleRuntime
        [LuaValue.table [] [("tags", LuaValue.table [LuaValue.integer 7] [])]]
        = Outcome.ok { tags := ["7"] }
    ∧ _riemoon_event_create sampleRuntime
        [LuaValue.table [] [("tags", LuaValue.table [] [("x", LuaValue.string "y")])]]
        = Outcome.ok { tags := [] }
    ∧ _riemoon_event_create sampleRuntime
        [LuaValue.table [] [("tags", LuaValue.table [LuaValue.string stateWithNul] [])]]
        = Outcome.ok { tags := ["ok"] }
    ∧ "ok" ≠ stateWithNul
    ∧ _riemoon_event_create sampleRuntime
        [LuaValue.table [] [("tags", LuaValue.table [LuaValue.string "a"] []),
          (tagsKeyWithNul, LuaValue.table [LuaValue.string "b"] [])]]
        = Outcome.ok { tags := ["a", "b"] }
    ∧ tagsKeyWithNul ≠ "tags" := by
  exact ⟨rfl, rfl, rfl, rfl, by decide, rfl, by decide⟩

/-- C7, amended. For a mapping in which exactly one key reads `tags` as a C
string (the entry `(k, v)`; no other key reads `tags` up to its first NUL):
when `v` is a table whose positional entries are strings or numbers with the
string forms `strs`, the entry appends the C strings of `strs` (each string
up to its first NUL) in the same order, and the tags of the event built are
exactly these; when `v` is not a table the entry fails with the type error
"table expected", when a positional entry is neither a string nor a number
it fails with "string expected", and in both cases the builder ends in a Lua
error. -/
theorem event_create_tags (rt : Runtime) (l : Stack)
    (pre post : List (String × LuaValue)) (k : String) (v : LuaValue)
    (htop : lua_index l (-1) = some (LuaValue.table [] (pre ++ (k, v) :: post)))
    (hk : cstr k = "tags") (hothers : ∀ p ∈ pre ++ post, cstr p.1 ≠ "tags") :
    (∀ (arr : List LuaValue) (other : List (String × LuaValue)) (strs : List String),
        v = LuaValue.table arr other →
        arr.map (fun t => lua_tolstring rt (some t)) = strs.map some →
        (∀ (l0 : Stack) (event : Event),
          event_entry rt (lua_push (lua_push l0 (LuaValue.string k)) v) event
            = Outcome.ok { event with tags := event.tags ++ strs.map cstr })
        ∧ ∀ ev : Event, _riemoon_event_create rt l = Outcome.ok ev →
            ev.tags = strs.map cstr)
    ∧ (lua_type (some v) ≠ LuaType.table →
        (∃ e, _riemoon_event_create rt l = Outcome.error e)
        ∧ ∀ event, event_entry rt [LuaValue.string k, v] event
            = Outcome.error (LuaError.typeExpected "table"))
    ∧ (∀ arr other, v = LuaValue.table arr other →
        (∃ t ∈ arr, lua_tolstring rt (some t) = none) →
        (∃ e, _riemoon_event_create rt l = Outcome.error e)
        ∧ ∀ event, event_entry rt [LuaValue.string k, v] event
            = Outcome.error (LuaError.typeExpected "string")) := by
  have hcreate : _riemoon_event_create rt l
      = event_loop rt [] (pre ++ (k, v) :: post) riemann_event_new := by
    simp only [_riemoon_event_create, htop, event_loop_stack rt l]
  have hmem : (k, v) ∈ pre ++ (k, v) :: post := by simp
  refine ⟨?_, ?_, ?_⟩
  · intro arr other strs hv hstrs
    subst hv
    refine ⟨fun l0 event => by
      rw [event_entry_stack, event_entry_tags rt k _ event hk]
      simp only [tagStrings_of_map rt arr strs hstrs], ?_⟩
    intro ev hbuild
    rw [hcreate, event_loop_append] at hbuild
    have hpre : ∀ p ∈ pre, cstr p.1 ≠ "tags" :=
      fun p hp => hothers p (List.mem_append_left _ hp)
    have hpost : ∀ p ∈ post, cstr p.1 ≠ "tags" :=
      fun p hp => hothers p (List.mem_append_right _ hp)
    cases h1 : event_loop rt [] pre riemann_event_new with
    | ok ev1 =>
      rw [h1] at hbuild
      have t1 : ev1.tags = [] := event_loop_tags_frame rt pre hpre _ _ h1
      simp only [event_loop, event_entry_stack rt [] k (LuaValue.table arr other),
        event_entry_tags rt k (LuaValue.table arr other) ev1 hk,
        tagStrings_of_map rt arr strs hstrs] at hbuild
      rw [event_loop_tags_frame rt post hpost _ _ hbuild]
      simp [t1]
    | error e => rw [h1] at hbuild; cases hbuild
    | undefined => rw [h1] at hbuild; cases hbuild
  · intro hv
    have hentry : ∀ event, event_entry rt [LuaValue.string k, v] event
        = Outcome.error (LuaError.typeExpected "table") := by
      intro event
      rw [event_entry_tags rt k v event hk]
      cases v <;> first | rfl | exact absurd rfl hv
    refine ⟨?_, hentry⟩
    rw [hcreate]
    exact event_loop_fails rt k v (fun event => ⟨_, hentry event⟩) _ hmem _
  · intro arr other hv hbad
    have hentry : ∀ event, event_entry rt [LuaValue.string k, v] event
        = Outcome.error (LuaError.typeExpected "string") := by
      intro event
      rw [event_entry_tags rt k v event hk, hv]
      simp only [tagStrings_none rt arr hbad]
    refine ⟨?_, hentry⟩
    rw [hcreate]
    exact event_loop_fails rt k v (fun event => ⟨_, hentry event⟩) _ hmem _

/-- C7, amended, at the mapping `{host = "h1", tags = {"a", "b", "c"}}`: the
tags of the event built are `"a"`, `"b"`, `"c"`. -/
theorem event_create_tags_witness :
    (builtEvent sampleRuntime
        (LuaValue.table [] [("host", LuaValue.string "h1"),
          ("tags", LuaValue.table
            [LuaValue.string "a", LuaValue.string "b", LuaValue.string "c"] [])])).tags
      = ["a", "b", "c"] :=
  ((event_create_tags sampleRuntime
    [LuaValue.table [] [("host", LuaValue.string "h1"),
      ("tags", LuaValue.table
        [LuaValue.string "a", LuaValue.string "b", LuaValue.string "c"] [])]]
    [("host", LuaValue.string "h1")] [] "tags"
    (LuaValue.table [LuaValue.string "a", LuaValue.string "b", LuaValue.string "c"] [])
    rfl rfl (by decide)).1
    [LuaValue.string "a", LuaValue.string "b", LuaValue.string "c"] [] ["a", "b", "c"]
    rfl rfl).2
    (builtEvent sampleRuntime
      (LuaValue.table [] [("host", LuaValue.string "h1"),
        ("tags", LuaValue.table
          [LuaValue.string "a", LuaValue.string "b", LuaValue.string "c"] [])]))
    rfl

/-! ## Round trip on well-known keys -/

theorem wrap64_of_range (n : Int) (h1 : -9223372036854775808 ≤ n)
    (h2 : n < 9223372036854775808) : wrap64 n = n := by
  unfold wrap64
  norm_num
  omega

theorem c_double_to_float_example :
    c_double_to_float 16777217 = CFloat.finite 16777216 := by
  have hn : ((16777217 : ℚ)).num = 16777217 := rfl
  have hd : ((16777217 : ℚ)).den = 1 := rfl
  have hm : roundMantissa 24 (-126) 16777217 1 = (8388608, 1) := by decide
  simp only [c_double_to_float, roundSignificand, hn, hd, hm]
  norm_num [pow2, Int.toNat]

theorem tagStrings_of_strings (rt : Runtime) (arr : List LuaValue)
    (h : arr.all isLuaString = true) : tagStrings rt arr = some (stringsOf arr) := by
  induction arr with
  | nil => rfl
  | cons v rest ih =>
    simp only [List.all_cons, Bool.and_eq_true] at h
    obtain ⟨hv, hrest⟩ := h
    cases v with
    | string s =>
      have e : stringsOf (LuaValue.string s :: rest) = cstr s :: stringsOf rest := rfl
      simp only [tagStrings, lua_tolstring, ih hrest, e]
    | _ => simp [isLuaString] at hv

theorem lookup_cons_cases (f k : String) (v : LuaValue) (rest : List (String × LuaValue))
    (hk : ∀ p ∈ rest, p.1 ≠ k) :
    (f = k ∧ List.lookup f ((k, v) :: rest) = some v ∧ List.lookup f [(k, v)] = some v
        ∧ List.lookup f rest = none)
    ∨ (f ≠ k ∧ List.lookup f ((k, v) :: rest) = List.lookup f rest
        ∧ List.lookup f [(k, v)] = none) := by
  by_cases h : f = k
  · subst h
    refine Or.inl ⟨rfl, by simp, by simp, ?_⟩
    rw [List.lookup_eq_none_iff]
    intro p hp
    simpa [bne_iff_ne] using (hk p hp).symm
  · have hb : (f == k) = false := beq_false_of_ne h
    refine Or.inr ⟨h, ?_, ?_⟩ <;> simp only [List.lookup_cons, List.lookup_nil, hb]

/-- Supplying the entry `(k, v)` first and the rest of the mapping next is
supplying the whole mapping, when the rest has no key `k`. -/
theorem overlayEvent_cons (base : Event) (k : String) (v : LuaValue)
    (rest : List (String × LuaValue)) (hk : ∀ p ∈ rest, p.1 ≠ k) :
    overlayEvent (overlayEvent base [(k, v)]) rest = overlayEvent base ((k, v) :: rest) := by
  simp only [overlayEvent, Event.mk.injEq]
  refine ⟨?_, ?_, ?_, ?_, ?_, ?_, ?_, trivial, ?_⟩
  · rcases lookup_cons_cases "time" k v rest hk with ⟨_, h1, h2, h3⟩ | ⟨_, h1, h2⟩
    · simp only [h1, h2, h3]
    · simp only [h1, h2]
  · rcases lookup_cons_cases "state" k v rest hk with ⟨_, h1, h2, h3⟩ | ⟨_, h1, h2⟩
    · simp only [h1, h2, h3]
    · simp only [h1, h2]
  · rcases lookup_cons_cases "service" k v rest hk with ⟨_, h1, h2, h3⟩ | ⟨_, h1, h2⟩
    · simp only [h1, h2, h3]
    · simp only [h1, h2]
  · rcases lookup_cons_cases "host" k v rest hk with ⟨_, h1, h2, h3⟩ | ⟨_, h1, h2⟩
    · simp only [h1, h2, h3]
    · simp only [h1, h2]
  · rcases lookup_cons_cases "description" k v rest hk with ⟨_, h1, h2, h3⟩ | ⟨_, h1, h2⟩
    · simp only [h1, h2, h3]
    · simp only [h1, h2]
  · rcases lookup_cons_cases "tags" k v rest hk with ⟨_, h1, h2, h3⟩ | ⟨_, h1, h2⟩
    · simp only [h1, h2, h3]
    · simp only [h1, h2]
  · rcases lookup_cons_cases "ttl" k v rest hk with ⟨_, h1, h2, h3⟩ | ⟨_, h1, h2⟩
    · simp only [h1, h2, h3]
    · simp only [h1, h2]
  · rcases lookup_cons_cases "metric" k v rest hk with ⟨_, h1, h2, h3⟩ | ⟨_, h1, h2⟩
    · simp only [h1, h2, h3]
    · simp only [h1, h2]

theorem cstr_time : cstr "time" = "time" := by decide
theorem cstr_state : cstr "state" = "state" := by decide
theorem cstr_service : cstr "service" = "service" := by decide
theorem cstr_host : cstr "host" = "host" := by decide
theorem cstr_description : cstr "description" = "description" := by decide
theorem cstr_tags : cstr "tags" = "tags" := by decide
theorem cstr_ttl : cstr "ttl" = "ttl" := by decide
theorem cstr_metric : cstr "metric" = "metric" := by decide

/-- A well-typed entry sets the field of its key from its value. -/
theorem event_entry_wellTyped (rt : Runtime) (k : String) (v : LuaValue) (base : Event)
    (h : wellTyped k v = true) :
    event_entry rt [LuaValue.string k, v] base = Outcome.ok (overlayEvent base [(k, v)]) := by
  cases v with
  | integer n =>
    simp only [wellTyped, Bool.and_eq_true, decide_eq_true_eq] at h
    obtain ⟨hk, h1, h2⟩ := h
    subst hk
    simp [event_entry, lua_index_pair_below, lua_index_pair_top, luaL_checklong,
      luaL_checkinteger, lua_tointegerx, cstr_time, wrap64_of_range n h1 h2, overlayEvent,
      List.lookup_cons]
  | string s =>
    simp only [wellTyped, Bool.or_eq_true, decide_eq_true_eq] at h
    rcases h with ((hk | hk) | hk) | hk <;> subst hk
    · simp [event_entry, lua_index_pair_below, lua_index_pair_top, luaL_checkstring,
        lua_tolstring, cstr_state, overlayEvent, List.lookup_cons]
    · simp [event_entry, lua_index_pair_below, lua_index_pair_top, luaL_checkstring,
        lua_tolstring, cstr_service, overlayEvent, List.lookup_cons]
    · simp [event_entry, lua_index_pair_below, lua_index_pair_top, luaL_checkstring,
        lua_tolstring, cstr_host, overlayEvent, List.lookup_cons]
    · simp [event_entry, lua_index_pair_below, lua_index_pair_top, luaL_checkstring,
        lua_tolstring, cstr_description, overlayEvent, List.lookup_cons]
  | table arr other =>
    simp only [wellTyped, Bool.and_eq_true, decide_eq_true_eq] at h
    obtain ⟨hk, harr⟩ := h
    subst hk
    rw [event_entry_tags rt "tags" _ base cstr_tags]
    simp [tagStrings_of_strings rt arr harr, overlayEvent, List.lookup_cons]
  | float q =>
    simp only [wellTyped, Bool.or_eq_true, decide_eq_true_eq] at h
    rcases h with hk | hk <;> subst hk
    · simp [event_entry, lua_index_pair_below, lua_index_pair_top, luaL_checknumber,
        lua_tonumberx, cstr_ttl, overlayEvent, List.lookup_cons]
    · simp [event_entry, lua_index_pair_below, lua_index_pair_top, luaL_checknumber,
        lua_tonumberx, cstr_metric, overlayEvent, List.lookup_cons]
  | nil => simp [wellTyped] at h
  | boolean b => simp [wellTyped] at h
  | userdata t ud => simp [wellTyped] at h

theorem event_loop_wellTyped (rt : Runtime) (hash : List (String × LuaValue)) :
    (hash.map Prod.fst).Nodup → (∀ p ∈ hash, wellTyped p.1 p.2 = true) →
    ∀ base, event_loop rt [] hash base = Outcome.ok (overlayEvent base hash) := by
  induction hash with
  | nil => intro _ _ base; rfl
  | cons p rest ih =>
    intro hkeys htyped base
    obtain ⟨k, v⟩ := p
    simp only [List.map_cons, List.nodup_cons, List.mem_map, not_exists, not_and] at hkeys
    have hk : ∀ p ∈ rest, p.1 ≠ k := fun p hp => hkeys.1 p hp
    simp only [event_loop, event_entry_stack rt [] k v,
      event_entry_wellTyped rt k v base (htyped (k, v) (by simp))]
    rw [ih hkeys.2 (fun p hp => htyped p (List.mem_cons_of_mem _ hp)), overlayEvent_cons base k v rest hk]

/-- C6, as stated, fails for a string with a NUL character and for a `ttl`
that single precision cannot represent: from `{state = "ok\0x"}` the event
has `state = "ok"`, and from `{ttl = 16777217.0}` it has `ttl = 16777216`. -/
theorem event_create_round_trip_fails :
    wellTyped "state" (LuaValue.string stateWithNul) = true
    ∧ _riemoon_event_create sampleRuntime
        [LuaValue.table [] [("state", LuaValue.string stateWithNul)]]
        = Outcome.ok { state := some "ok" }
    ∧ "ok" ≠ stateWithNul
    ∧ wellTyped "ttl" (LuaValue.float 16777217) = true
    ∧ _riemoon_event_create sampleRuntime
        [LuaValue.table [] [("ttl", LuaValue.float 16777217)]]
        = Outcome.ok { ttl := some (CFloat.finite 16777216) } := by
  refine ⟨rfl, rfl, by decide, rfl, ?_⟩
  have h : _riemoon_event_create sampleRuntime
      [LuaValue.table [] [("ttl", LuaValue.float 16777217)]]
      = Outcome.ok { ttl := some (c_double_to_float 16777217) } := rfl
  rw [h, c_double_to_float_example]

/-- C6, amended. For a mapping whose keys are distinct well-known names and
whose values are well-typed, the builder returns the event in which `time`
and `metric` hold the supplied values, `state`, `service`, `host` and
`description` the supplied strings up to their first NUL (the strings
themselves when they have none), `tags` the supplied strings in order, each
up to its first NUL, and `ttl` the supplied value converted to `float`; the
fields that are not supplied are unset and there is no attribute. -/
theorem event_create_round_trip (rt : Runtime) (l : Stack)
    (hash : List (String × LuaValue))
    (htop : lua_index l (-1) = some (LuaValue.table [] hash))
    (hkeys : (hash.map Prod.fst).Nodup)
    (htyped : ∀ p ∈ hash, wellTyped p.1 p.2 = true) :
    _riemoon_event_create rt l = Outcome.ok (expectedEvent hash) := by
  simp only [_riemoon_event_create, htop, event_loop_stack rt l hash,
    event_loop_wellTyped rt hash hkeys htyped]
  rfl

/-- C6, amended, at the mapping `{time = 1000, state = "ok", service =
"disk", host = "h1", tags = {"x", "y"}, metric = 0.5}`: every field comes
back as supplied, and there is no attribute. -/
theorem event_create_round_trip_witness :
    _riemoon_event_create sampleRuntime [LuaValue.table [] roundTripMapping]
      = Outcome.ok
          { time := some 1000, state := some "ok", service := some "disk",
            host := some "h1", description := none, tags := ["x", "y"], ttl := none,
            attributes := [], metric_d := some (1 / 2) } :=
  event_create_round_trip sampleRuntime [LuaValue.table [] roundTripMapping]
    roundTripMapping rfl (by decide) (by decide)

end Riemoon
